import Mathlib

/-!
Shallow embedding of the esp32_bridge coordination core
(event bus, device registry, power-management unit, battery manager),
translated from the C++ sources, together with proofs about the
properties the specification states for them.

Numeric samples (voltage, current, temperature) are modelled as exact
rationals; machine floats do not overflow or behave non-linearly in any
of the code paths involved, so exact arithmetic is a faithful model of
the comparisons the code performs.  `static_cast<int>` appears only
applied to a non-negative quantity, where C truncation towards zero
agrees with the floor function.
-/

/-! ### Event system (event_system.h / event_system.cpp) -/

/-- Model of `enum class event_type` from the event-system header. -/
inductive event_type
  | network_connected
  | network_disconnected
  | data_received
  | battery_low
  | battery_critical
  | battery_normal
  | charging_started
  | charging_complete
  | battery_temp_high
  | battery_temp_normal
  | device_error
  | enter_deep_sleep
deriving DecidableEq, Repr

/-! ### Battery manager (battery_manager.h / battery_manager.cpp) -/

/-- Model of `enum class battery_state`. -/
inductive battery_state
  | critical
  | low
  | normal
  | high
  | full
  | charging
  | error
deriving DecidableEq, Repr

/-- Model of `enum class charging_state`. -/
inductive charging_state
  | not_charging
  | fast_charging
  | slow_charging
  | trickle_charging
  | complete
  | error
deriving DecidableEq, Repr

/-- One poll of the battery-sensor device inside `update_battery_state`:
the values returned by `get_voltage`, `get_current`, `get_temperature`
and `is_charging` on that tick. -/
structure battery_sample where
  voltage : ℚ
  current : ℚ
  temperature : ℚ
  is_charging : Bool
deriving DecidableEq, Repr

/-- Observable side effects of the battery manager: calls to the
device's charge-control pair and events published on the bus. -/
inductive battery_action
  | disable_charging
  | enable_charging
  | publish (e : event_type)
deriving DecidableEq, Repr

/-- The mutable state of `battery_manager` (the fields its state-update
logic reads and writes). -/
structure battery_manager where
  current_state : battery_state
  charging_state : charging_state
  charge_percentage : Int
  low_battery_threshold : Int
  critical_battery_threshold : Int
  last_voltage : ℚ
  last_current : ℚ
  last_temperature : ℚ
  temp_warning_active : Bool
deriving DecidableEq, Repr

/-- Constant `BATTERY_MIN_VOLTAGE`, 3.0 V. -/
def BATTERY_MIN_VOLTAGE : ℚ := 3

/-- Constant `BATTERY_MAX_VOLTAGE`, 4.2 V. -/
def BATTERY_MAX_VOLTAGE : ℚ := 21 / 5

/-- Constant `BATTERY_TEMP_WARNING`, 45 degrees Celsius. -/
def BATTERY_TEMP_WARNING : ℚ := 45

/-- Constant `BATTERY_TEMP_CRITICAL`, 55 degrees Celsius. -/
def BATTERY_TEMP_CRITICAL : ℚ := 55

/-- The `battery_manager` constructor with the Kconfig defaults
(`CONFIG_BATTERY_LOW_THRESHOLD` = 20, `CONFIG_BATTERY_CRITICAL_THRESHOLD`
= 10). -/
def battery_manager.initial : battery_manager :=
  { current_state := battery_state.normal
    charging_state := charging_state.not_charging
    charge_percentage := 50
    low_battery_threshold := 20
    critical_battery_threshold := 10
    last_voltage := 0
    last_current := 0
    last_temperature := 25
    temp_warning_active := false }

/-- Model of `battery_manager::calculate_percentage`: linear voltage-to-percent
map with saturating bounds; the cast to `int` truncates a value that is
non-negative in its branch, i.e. takes the floor. -/
def calculate_percentage (voltage : ℚ) : Int :=
  if voltage ≤ BATTERY_MIN_VOLTAGE then 0
  else if BATTERY_MAX_VOLTAGE ≤ voltage then 100
  else ⌊(voltage - BATTERY_MIN_VOLTAGE) * 100 / (BATTERY_MAX_VOLTAGE - BATTERY_MIN_VOLTAGE)⌋

/-- The charging-state ladder of `update_battery_state`. -/
def compute_charging_state (is_charging : Bool) (current : ℚ) (percentage : Int) :
    charging_state :=
  if is_charging then
    if current < -500 then charging_state.fast_charging
    else if current < -100 then charging_state.slow_charging
    else if current < -10 then charging_state.trickle_charging
    else if 100 ≤ percentage then charging_state.complete
    else charging_state.error
  else charging_state.not_charging

/-- The thermal-guard block of `update_battery_state`: given the stored
`temp_warning_active_` flag and the sampled temperature, returns the new
flag together with the side effects the block performs, in program
order.  Above the critical threshold the code always calls
`disable_charging` and publishes `battery_temp_high` only when the flag
was not yet set; below the warning threshold with the flag set it calls
`enable_charging` and publishes `battery_temp_normal`. -/
def thermal_step (temp_warning_active : Bool) (temperature : ℚ) :
    Bool × List battery_action :=
  if BATTERY_TEMP_CRITICAL < temperature then
    if temp_warning_active then
      (true, [battery_action.disable_charging])
    else
      (true, [battery_action.disable_charging,
              battery_action.publish event_type.battery_temp_high])
  else if temperature < BATTERY_TEMP_WARNING ∧ temp_warning_active = true then
    (false, [battery_action.enable_charging,
             battery_action.publish event_type.battery_temp_normal])
  else (temp_warning_active, [])

/-- The battery-state ladder of `update_battery_state`, in the order
the code tests the conditions: charging, then critical, low, the
`percentage > 80` high case, the `percentage >= 100` full case, and
normal as default. -/
def compute_battery_state (is_charging : Bool) (percentage critical_threshold low_threshold : Int) :
    battery_state :=
  if is_charging then battery_state.charging
  else if percentage ≤ critical_threshold then battery_state.critical
  else if percentage ≤ low_threshold then battery_state.low
  else if 80 < percentage then battery_state.high
  else if 100 ≤ percentage then battery_state.full
  else battery_state.normal

/-- The state-change publication at the end of `update_battery_state`:
when the state changed, exactly one event determined by the new state
(the `error` arm is the `default: return;` branch, which publishes
nothing). -/
def state_change_events (prev next : battery_state) : List battery_action :=
  if prev ≠ next then
    match next with
    | battery_state.low => [battery_action.publish event_type.battery_low]
    | battery_state.critical => [battery_action.publish event_type.battery_critical]
    | battery_state.normal => [battery_action.publish event_type.battery_normal]
    | battery_state.high => [battery_action.publish event_type.battery_normal]
    | battery_state.full => [battery_action.publish event_type.battery_normal]
    | battery_state.charging => [battery_action.publish event_type.charging_started]
    | battery_state.error => []
  else []

/-- Model of `battery_manager::update_battery_state`, one tick: sample the
device, store the readings, recompute percentage and charging state,
run the thermal guard, recompute the battery state, and publish a
state-change event when it differs from the previous tick.  Returns the
new manager state and the side effects in program order. -/
def update_battery_state (m : battery_manager) (dev : battery_sample) :
    battery_manager × List battery_action :=
  let percentage := calculate_percentage dev.voltage
  let th := thermal_step m.temp_warning_active dev.temperature
  let next_state :=
    compute_battery_state dev.is_charging percentage
      m.critical_battery_threshold m.low_battery_threshold
  ({ m with
      last_voltage := dev.voltage
      last_current := dev.current
      last_temperature := dev.temperature
      charge_percentage := percentage
      charging_state := compute_charging_state dev.is_charging dev.current percentage
      temp_warning_active := th.1
      current_state := next_state },
    th.2 ++ state_change_events m.current_state next_state)

/-- Model of `battery_manager::on_event`: the network events only adjust logging,
`enter_deep_sleep` disables charging; no handler touches
`current_state_`. -/
def battery_on_event (m : battery_manager) (e : event_type) :
    battery_manager × List battery_action :=
  match e with
  | event_type.enter_deep_sleep => (m, [battery_action.disable_charging])
  | _ => (m, [])

/-- Run a sequence of update ticks, recording for every tick the state
it computed and the actions it performed. -/
def run_battery : battery_manager → List battery_sample →
    battery_manager × List (battery_state × List battery_action)
  | m, [] => (m, [])
  | m, x :: xs =>
      let t := update_battery_state m x
      let r := run_battery t.1 xs
      (r.1, (t.1.current_state, t.2) :: r.2)

/-- Run a sequence of update ticks, collecting all actions in order. -/
def run_battery_actions : battery_manager → List battery_sample →
    battery_manager × List battery_action
  | m, [] => (m, [])
  | m, x :: xs =>
      let t := update_battery_state m x
      let r := run_battery_actions t.1 xs
      (r.1, t.2 ++ r.2)

/-- An input consumed by the battery manager over its lifetime: either
a periodic `update_battery_state` tick or an event received through
`on_event`. -/
inductive battery_input
  | tick (x : battery_sample)
  | ev (e : event_type)
deriving DecidableEq, Repr

/-- State reached by the battery manager after consuming a sequence of
ticks and events. -/
def battery_run_inputs (m : battery_manager) (inputs : List battery_input) :
    battery_manager :=
  inputs.foldl
    (fun s i =>
      match i with
      | battery_input.tick x => (update_battery_state s x).1
      | battery_input.ev e => (battery_on_event s e).1)
    m

/-! ### Power-management unit (pmu.h / pmu implementation) -/

/-- The mutable state of `pmu`: the lock flag, the time recorded at the
last transition to unlocked (a `steady_clock` time point, modelled in
nanoseconds), the configured idle timeout (`std::chrono::seconds`, a
signed count), and the suspended flag. -/
structure pmu where
  is_locked : Bool
  last_unlock_time : Nat
  idle_timeout : Int
  is_suspended : Bool
deriving DecidableEq, Repr

/-- Broadcasts the pmu makes on the device manager. -/
inductive pmu_action
  | suspend_all
  | resume_all
deriving DecidableEq, Repr

/-- Nanoseconds per second: the conversion `duration_cast<seconds>`
performs on the difference of two `steady_clock` time points, truncating
towards zero (for the non-negative differences that arise here, integer
floor division). -/
def NS_PER_SEC : Nat := 1000000000

/-- Constant `PMU_DEFAULT_IDLE_TIMEOUT` = `CONFIG_POWER_SAVE_TIMEOUT`, whose
Kconfig default is 30 seconds. -/
def PMU_DEFAULT_IDLE_TIMEOUT : Int := 30

/-- The `pmu` constructor: unlocked, not suspended, idle-window start
recorded at construction time; a zero `idle_timeout_seconds` argument is
replaced by the compile-time default (any other value, negative
included, is taken as given). -/
def pmu_init (now : Nat) (idle_timeout_seconds : Int) : pmu :=
  { is_locked := false
    last_unlock_time := now
    idle_timeout :=
      if idle_timeout_seconds = 0 then PMU_DEFAULT_IDLE_TIMEOUT else idle_timeout_seconds
    is_suspended := false }

/-- Model of `pmu::lock`: when not yet locked, set the lock flag, resuming all
devices first if the system was suspended. -/
def pmu_lock (p : pmu) : pmu × List pmu_action :=
  if p.is_locked then (p, [])
  else if p.is_suspended then
    ({ p with is_locked := true, is_suspended := false }, [pmu_action.resume_all])
  else ({ p with is_locked := true }, [])

/-- Model of `pmu::unlock`: only when currently locked, clear the lock flag and
record the current time as the idle-window start; a no-op otherwise. -/
def pmu_unlock (p : pmu) (now : Nat) : pmu :=
  if p.is_locked then { p with is_locked := false, last_unlock_time := now } else p

/-- Model of `pmu::loop`: early return while locked or suspended; otherwise
compute the whole elapsed seconds since the last unlock and, when they
reach the idle timeout, suspend all devices and set the suspended
flag. -/
def pmu_loop (p : pmu) (now : Nat) : pmu × List pmu_action :=
  if p.is_locked || p.is_suspended then (p, [])
  else
    let elapsed : Int := ((now - p.last_unlock_time) / NS_PER_SEC : Nat)
    if p.idle_timeout ≤ elapsed then
      if p.is_suspended then (p, [])
      else ({ p with is_suspended := true }, [pmu_action.suspend_all])
    else (p, [])

/-- Model of `pmu::set_idle_timeout`: a non-positive argument is replaced by the
compile-time default. -/
def pmu_set_idle_timeout (p : pmu) (seconds : Int) : pmu :=
  if seconds ≤ 0 then { p with idle_timeout := PMU_DEFAULT_IDLE_TIMEOUT }
  else { p with idle_timeout := seconds }

/-- Model of `pmu::get_idle_timeout`. -/
def pmu_get_idle_timeout (p : pmu) : Int :=
  p.idle_timeout

/-- A sequence of `loop()` invocations at the given times, with no lock
or unlock in between. -/
def pmu_run_loops (p : pmu) (ts : List Nat) : pmu :=
  ts.foldl (fun q t => (pmu_loop q t).1) p

/-! ### Device registry (device_manager) -/

/-- A registered device, identified by its stable `name()` string
(`strcmp(a, b) == 0` on the C strings is string equality). -/
structure device where
  name : String
deriving DecidableEq, Repr

/-- Model of `device_manager::register_device`: a null pointer is rejected; a
device whose name matches an already-registered one (scan with
`std::find_if` + `strcmp`) is rejected; otherwise the device is appended
(`push_back`). -/
def register_device (devices : List device) (dev : Option device) : List device :=
  match dev with
  | none => devices
  | some d =>
      if devices.any (fun existing => existing.name == d.name) then devices
      else devices ++ [d]

/-- Registry contents after a sequence of `register_device` calls
starting from the empty registry. -/
def registry_after (calls : List (Option device)) : List device :=
  calls.foldl register_device []

/-! ### Event bus (event_system.cpp) -/

/-- A listener is identified by the object a `weak_ptr` refers to;
whether its owning `shared_ptr` is still alive during one publish is
given by an `alive` predicate, fixed for that publish. -/
abbrev listener_id := Nat

/-- Lookup in `std::map<event_type, std::vector<weak_ptr<event_listener>>>`
lookup (`listeners_.find`). -/
def find_listeners :
    List (event_type × List listener_id) → event_type → Option (List listener_id)
  | [], _ => none
  | p :: rest, e => if p.1 = e then some p.2 else find_listeners rest e

/-- Writing back the pruned vector for one event type (the in-place
`erase`/`remove_if` on `it->second`). -/
def replace_listeners :
    List (event_type × List listener_id) → event_type → List listener_id →
      List (event_type × List listener_id)
  | [], _, _ => []
  | p :: rest, e, ls =>
      if p.1 = e then (e, ls) :: rest else p :: replace_listeners rest e ls

/-- The listeners currently registered for a type (empty when the type
has no entry). -/
def lookup_listeners (table : List (event_type × List listener_id)) (e : event_type) :
    List listener_id :=
  (find_listeners table e).getD []

/-- Model of `event_bus::publish`: return unchanged when the event type has no
entry; otherwise erase the expired `weak_ptr`s from that entry, then
walk the remaining ones, locking each and invoking it only when the
lock succeeds.  Returns the new table and the listeners invoked, in
order. -/
def event_bus_publish (alive : listener_id → Bool)
    (table : List (event_type × List listener_id)) (e : event_type) :
    List (event_type × List listener_id) × List listener_id :=
  match find_listeners table e with
  | none => (table, [])
  | some ls =>
      let pruned := ls.filter alive
      let invoked := pruned.filter alive
      (replace_listeners table e pruned, invoked)

/-! ### Concrete inputs used by counterexamples and witnesses -/

/-- Voltages whose computed percentages are `[5, 15, 25, 85, 100]`
(3.06 V, 3.18 V, 3.3 V, 4.02 V, 4.2 V), sampled while not charging at
normal temperature. -/
def c1_voltage_samples : List battery_sample :=
  [ { voltage := 153/50, current := 100, temperature := 25, is_charging := false }
  , { voltage := 159/50, current := 100, temperature := 25, is_charging := false }
  , { voltage := 33/10, current := 100, temperature := 25, is_charging := false }
  , { voltage := 201/50, current := 100, temperature := 25, is_charging := false }
  , { voltage := 21/5, current := 100, temperature := 25, is_charging := false } ]

/-- A tick at 60 °C, above the 55 °C critical threshold. -/
def hot_sample : battery_sample :=
  { voltage := 37/10, current := 100, temperature := 60, is_charging := false }

/-- A second tick still above the critical threshold (61 °C). -/
def hotter_sample : battery_sample :=
  { voltage := 37/10, current := 100, temperature := 61, is_charging := false }

/-- A recovery tick at 40 °C, below the 45 °C warning threshold. -/
def cool_sample : battery_sample :=
  { voltage := 37/10, current := 100, temperature := 40, is_charging := false }

/-! ## Theorems -/

/-! ### C1 — battery state sequence for percentages [5, 15, 25, 85, 100] -/

/-- C1, counterexample: with the default thresholds (low = 20,
critical = 10), not charging, the voltage sequence computing to
percentages `[5, 15, 25, 85, 100]` yields the per-tick state sequence
`[critical, low, normal, high, high]` — not `[critical, low, normal,
high, full]` as the claim states: at 100 % the `percentage > 80` test
fires before the `percentage >= 100` test ever runs, so the state stays
`high` and `full` is not produced. -/
theorem c1_state_sequence_counterexample :
    ((run_battery battery_manager.initial c1_voltage_samples).2.map Prod.fst)
        = [battery_state.critical, battery_state.low, battery_state.normal,
           battery_state.high, battery_state.high] ∧
    ((run_battery battery_manager.initial c1_voltage_samples).2.map Prod.fst)
        ≠ [battery_state.critical, battery_state.low, battery_state.normal,
           battery_state.high, battery_state.full] := by
  have h : ((run_battery battery_manager.initial c1_voltage_samples).2.map Prod.fst)
      = [battery_state.critical, battery_state.low, battery_state.normal,
         battery_state.high, battery_state.high] := by
    with_unfolding_all rfl
  exact ⟨h, by rw [h]; decide⟩

/-- C1, amended: the same run yields the state sequence
`[critical, low, normal, high, high]`, with exactly one state-change
event published at each of the first four ticks (`battery_critical`,
`battery_low`, `battery_normal`, `battery_normal`) and no event at the
fifth tick, whose state is unchanged; the sample voltages indeed compute
to the percentages `[5, 15, 25, 85, 100]`. -/
theorem c1_state_sequence_amended :
    (c1_voltage_samples.map (fun x => calculate_percentage x.voltage))
        = [5, 15, 25, 85, 100] ∧
    (run_battery battery_manager.initial c1_voltage_samples).2
        = [ (battery_state.critical, [battery_action.publish event_type.battery_critical])
          , (battery_state.low, [battery_action.publish event_type.battery_low])
          , (battery_state.normal, [battery_action.publish event_type.battery_normal])
          , (battery_state.high, [battery_action.publish event_type.battery_normal])
          , (battery_state.high, []) ] := by
  constructor
  · with_unfolding_all rfl
  · with_unfolding_all rfl

/-! ### C7 — pmu::unlock -/

/-- C7, counterexample: `unlock()` on an already-unlocked pmu does not
record the call time as the idle-window start — the stored time stays at
its previous value (5 here), not the call time (10) — contradicting the
claim that every `unlock()` records the time of that call. -/
theorem c7_unlock_counterexample :
    (pmu_unlock
        { is_locked := false, last_unlock_time := 5, idle_timeout := 10,
          is_suspended := false } 10).last_unlock_time = 5 ∧ (5 : Nat) ≠ 10 := by
  decide

/-- C7, amended: `unlock()` always leaves the pmu unlocked and is
idempotent, but it records the call time as the idle-window start only
when the pmu was locked; when already unlocked it is a complete no-op,
keeping the previously recorded idle-window start. -/
theorem c7_unlock_amended (p : pmu) (t u : Nat) :
    (pmu_unlock p t).is_locked = false ∧
    (pmu_unlock p t).last_unlock_time
        = (if p.is_locked then t else p.last_unlock_time) ∧
    (pmu_unlock p t).is_suspended = p.is_suspended ∧
    (pmu_unlock p t).idle_timeout = p.idle_timeout ∧
    pmu_unlock (pmu_unlock p t) u = pmu_unlock p t := by
  unfold pmu_unlock
  cases hp : p.is_locked <;> simp [hp]

/-! ### C10 — idle-timeout defaulting -/

/-- C10: a pmu constructed with `idle_timeout_seconds = 0` gets the
compile-time default idle timeout (`CONFIG_POWER_SAVE_TIMEOUT`) rather
than 0, and `set_idle_timeout(s)` with `s ≤ 0` likewise sets the
timeout to that default instead of keeping the previous value. -/
theorem c10_idle_timeout_default (now : Nat) (p : pmu) (s : Int) (h : s ≤ 0) :
    pmu_get_idle_timeout (pmu_init now 0) = PMU_DEFAULT_IDLE_TIMEOUT ∧
    pmu_get_idle_timeout (pmu_set_idle_timeout p s) = PMU_DEFAULT_IDLE_TIMEOUT := by
  constructor
  · simp [pmu_init, pmu_get_idle_timeout]
  · simp [pmu_set_idle_timeout, pmu_get_idle_timeout, if_pos h]

/-- C10, witness: the defaulting at the concrete inputs 0 and −3. -/
theorem c10_idle_timeout_default_witness :
    pmu_get_idle_timeout (pmu_init 0 0) = PMU_DEFAULT_IDLE_TIMEOUT ∧
    pmu_get_idle_timeout (pmu_set_idle_timeout (pmu_init 0 7) (-3))
        = PMU_DEFAULT_IDLE_TIMEOUT :=
  ⟨(c10_idle_timeout_default 0 (pmu_init 0 7) (-3) (by decide)).1,
   (c10_idle_timeout_default 0 (pmu_init 0 7) (-3) (by decide)).2⟩

/-! ### C4 — device registry name uniqueness -/

/-- One `register_device` call preserves distinctness of registered
names. -/
theorem register_device_nodup (devs : List device) (dev : Option device)
    (h : (devs.map device.name).Nodup) :
    ((register_device devs dev).map device.name).Nodup := by
  match dev with
  | none => simpa [register_device] using h
  | some d =>
    by_cases hc : devs.any (fun existing => existing.name == d.name)
    · simpa [register_device, hc] using h
    · have hmem : d.name ∉ devs.map device.name := by
        simp only [List.any_eq_true, beq_iff_eq] at hc
        simp only [List.mem_map]
        rintro ⟨x, hx, hxeq⟩
        exact hc ⟨x, hx, hxeq⟩
      simp [register_device, hc, List.nodup_append, h, hmem]

/-- C4: starting from the empty registry, after any sequence of
`register_device` calls no two registered devices share a name; a null
device leaves the registry unchanged, and a non-null device is appended
exactly when no already-registered device has its name (otherwise the
call leaves the registry unchanged, rejecting the second of the
colliding pair). -/
theorem c4_registry_names_unique (calls : List (Option device)) :
    ((registry_after calls).map device.name).Nodup ∧
    (∀ devices : List device, register_device devices none = devices) ∧
    (∀ (devices : List device) (d : device),
      register_device devices (some d) =
        if devices.any (fun existing => existing.name == d.name) then devices
        else devices ++ [d]) := by
  refine ⟨?_, fun _ => rfl, fun _ _ => rfl⟩
  have aux : ∀ (cs : List (Option device)) (acc : List device),
      (acc.map device.name).Nodup →
      ((cs.foldl register_device acc).map device.name).Nodup := by
    intro cs
    induction cs with
    | nil => intro acc h; simpa using h
    | cons c rest ih =>
        intro acc h
        exact ih _ (register_device_nodup acc c h)
  exact aux calls [] (by simp)

/-! ### C6 — publish never invokes a released listener -/

/-- After replacing the entry of `e`, looking `e` up finds the new
value (when `e` had an entry before). -/
theorem find_listeners_replace (t : List (event_type × List listener_id))
    (e : event_type) (v ls : List listener_id)
    (h : find_listeners t e = some ls) :
    find_listeners (replace_listeners t e v) e = some v := by
  induction t with
  | nil => simp [find_listeners] at h
  | cons p rest ih =>
      by_cases hp : p.1 = e
      · simp [find_listeners, replace_listeners, hp]
      · simp only [find_listeners, replace_listeners, hp, if_false, if_neg hp] at h ⊢
        exact ih h

/-- C6: for every liveness assignment, table and event type,
`event_bus_publish` invokes only listeners whose owner is still alive
(every invoked listener satisfies `alive`); the invoked listeners are
exactly the still-alive subscribers of that type, so a type with no
subscribers invokes nobody and the publish still yields a result; and
the expired subscriptions of that type are removed from the table. -/
theorem c6_publish_only_alive (alive : listener_id → Bool)
    (table : List (event_type × List listener_id)) (e : event_type) :
    ((event_bus_publish alive table e).2.all alive = true) ∧
    (event_bus_publish alive table e).2 = (lookup_listeners table e).filter alive ∧
    lookup_listeners (event_bus_publish alive table e).1 e
        = (lookup_listeners table e).filter alive := by
  cases h : find_listeners table e with
  | none => simp [event_bus_publish, h, lookup_listeners]
  | some ls =>
      have hfilter : (ls.filter alive).filter alive = ls.filter alive := by
        simp [List.filter_filter]
      refine ⟨?_, ?_, ?_⟩
      · simp only [event_bus_publish, h, hfilter, List.all_eq_true]
        intro l hl
        exact (List.mem_filter.mp hl).2
      · simp [event_bus_publish, h, lookup_listeners, hfilter]
      · simp [event_bus_publish, h, lookup_listeners, hfilter,
              find_listeners_replace table e (ls.filter alive) ls h]

/-! ### C9 — the battery manager never reports battery_state.error -/

/-- The battery-state ladder only produces the six non-error states. -/
theorem compute_battery_state_mem (c : Bool) (p ct lt : Int) :
    compute_battery_state c p ct lt ∈
      [battery_state.charging, battery_state.critical, battery_state.low,
       battery_state.high, battery_state.full, battery_state.normal] := by
  unfold compute_battery_state
  split_ifs <;> decide

/-- Handler `on_event` never modifies `current_state_` (or any manager state). -/
theorem battery_on_event_state (m : battery_manager) (e : event_type) :
    (battery_on_event m e).1 = m := by
  cases e <;> rfl

/-- C9: starting from the constructor state (`normal`), after every
sequence of `update_battery_state` ticks and received events,
`get_battery_state()` is one of the six states charging, critical, low,
high, full, normal — never `battery_state.error`, although `error` is a
declared enumerator. -/
theorem c9_state_never_error (inputs : List battery_input) :
    (battery_run_inputs battery_manager.initial inputs).current_state ∈
      [battery_state.charging, battery_state.critical, battery_state.low,
       battery_state.high, battery_state.full, battery_state.normal] := by
  have aux : ∀ (is : List battery_input) (m : battery_manager),
      m.current_state ∈
        [battery_state.charging, battery_state.critical, battery_state.low,
         battery_state.high, battery_state.full, battery_state.normal] →
      (battery_run_inputs m is).current_state ∈
        [battery_state.charging, battery_state.critical, battery_state.low,
         battery_state.high, battery_state.full, battery_state.normal] := by
    intro is
    induction is with
    | nil => intro m h; simpa [battery_run_inputs] using h
    | cons i rest ih =>
        intro m h
        cases i with
        | tick x =>
            have hstep : battery_run_inputs m (battery_input.tick x :: rest)
                = battery_run_inputs (update_battery_state m x).1 rest := rfl
            rw [hstep]
            exact ih _ (compute_battery_state_mem _ _ _ _)
        | ev e =>
            have hstep : battery_run_inputs m (battery_input.ev e :: rest)
                = battery_run_inputs (battery_on_event m e).1 rest := rfl
            rw [hstep, battery_on_event_state]
            exact ih _ h
  exact aux inputs _ (by decide)

/-! ### C2 / C5 — the thermal guard -/

/-- The actions of one tick are the thermal-guard actions followed by
the state-change publication. -/
theorem update_battery_state_actions (m : battery_manager) (x : battery_sample) :
    (update_battery_state m x).2 =
      (thermal_step m.temp_warning_active x.temperature).2 ++
        state_change_events m.current_state
          (compute_battery_state x.is_charging (calculate_percentage x.voltage)
            m.critical_battery_threshold m.low_battery_threshold) := rfl

/-- The flag after one tick is the flag the thermal guard computed. -/
theorem update_battery_state_flag (m : battery_manager) (x : battery_sample) :
    (update_battery_state m x).1.temp_warning_active =
      (thermal_step m.temp_warning_active x.temperature).1 := rfl

/-- A tick does not change the thresholds. -/
theorem update_battery_state_thresholds (m : battery_manager) (x : battery_sample) :
    (update_battery_state m x).1.critical_battery_threshold = m.critical_battery_threshold ∧
    (update_battery_state m x).1.low_battery_threshold = m.low_battery_threshold :=
  ⟨rfl, rfl⟩

/-- Tripping tick: temperature above critical with the warning flag
clear disables charging and publishes the high-temperature event, in
that order, and sets the flag. -/
theorem thermal_step_hot_inactive (t : ℚ) (h : BATTERY_TEMP_CRITICAL < t) :
    thermal_step false t =
      (true, [battery_action.disable_charging,
              battery_action.publish event_type.battery_temp_high]) := by
  simp [thermal_step, h]

/-- Subsequent hot tick: temperature above critical with the flag set
still disables charging but publishes nothing. -/
theorem thermal_step_hot_active (t : ℚ) (h : BATTERY_TEMP_CRITICAL < t) :
    thermal_step true t = (true, [battery_action.disable_charging]) := by
  simp [thermal_step, h]

/-- Recovery tick: temperature below the warning threshold with the
flag set re-enables charging and publishes the normal-temperature
event, clearing the flag. -/
theorem thermal_step_cool_active (t : ℚ) (h : t < BATTERY_TEMP_WARNING) :
    thermal_step true t =
      (false, [battery_action.enable_charging,
               battery_action.publish event_type.battery_temp_normal]) := by
  have hnc : ¬ BATTERY_TEMP_CRITICAL < t := by
    have : t < BATTERY_TEMP_CRITICAL :=
      lt_trans h (by norm_num [BATTERY_TEMP_WARNING, BATTERY_TEMP_CRITICAL])
    exact not_lt.mpr this.le
  simp [thermal_step, hnc, h]

/-- Between the thresholds (or cool with the flag clear) the thermal
guard does nothing. -/
theorem thermal_step_between (a : Bool) (t : ℚ)
    (h1 : ¬ BATTERY_TEMP_CRITICAL < t) (h2 : ¬ t < BATTERY_TEMP_WARNING) :
    thermal_step a t = (a, []) := by
  simp [thermal_step, h1, h2]

/-- State-change publication never performs charge-control calls nor
temperature events. -/
theorem state_change_events_count_thermal (p n : battery_state) :
    (state_change_events p n).count battery_action.disable_charging = 0 ∧
    (state_change_events p n).count battery_action.enable_charging = 0 ∧
    (state_change_events p n).count (battery_action.publish event_type.battery_temp_high) = 0 ∧
    (state_change_events p n).count (battery_action.publish event_type.battery_temp_normal) = 0 := by
  unfold state_change_events
  split
  · cases n <;> decide
  · decide

/-- Unfolding one tick of `run_battery_actions`. -/
theorem run_battery_actions_cons (m : battery_manager) (x : battery_sample)
    (xs : List battery_sample) :
    run_battery_actions m (x :: xs) =
      ((run_battery_actions (update_battery_state m x).1 xs).1,
       (update_battery_state m x).2 ++
         (run_battery_actions (update_battery_state m x).1 xs).2) := rfl

/-- While the warning flag is set and every tick stays above the
critical threshold: no temperature event is ever published again, the
flag stays set, charging is disabled on every such tick, and charging
is never re-enabled. -/
theorem run_battery_hot_active :
    ∀ (xs : List battery_sample),
      (∀ x ∈ xs, BATTERY_TEMP_CRITICAL < x.temperature) →
      ∀ (m : battery_manager), m.temp_warning_active = true →
      (run_battery_actions m xs).1.temp_warning_active = true ∧
      (run_battery_actions m xs).2.count (battery_action.publish event_type.battery_temp_high) = 0 ∧
      (run_battery_actions m xs).2.count (battery_action.publish event_type.battery_temp_normal) = 0 ∧
      (run_battery_actions m xs).2.count battery_action.disable_charging = xs.length ∧
      (run_battery_actions m xs).2.count battery_action.enable_charging = 0 := by
  intro xs
  induction xs with
  | nil =>
      intro _ m hm
      simp [run_battery_actions, hm]
  | cons x rest ih =>
      intro hxs m hm
      have hx : BATTERY_TEMP_CRITICAL < x.temperature := hxs x (by simp)
      have hrest : ∀ y ∈ rest, BATTERY_TEMP_CRITICAL < y.temperature :=
        fun y hy => hxs y (List.mem_cons_of_mem _ hy)
      have hact : (update_battery_state m x).2 =
          [battery_action.disable_charging] ++
            state_change_events m.current_state
              (compute_battery_state x.is_charging (calculate_percentage x.voltage)
                m.critical_battery_threshold m.low_battery_threshold) := by
        rw [update_battery_state_actions, hm, thermal_step_hot_active _ hx]
      have hflag : (update_battery_state m x).1.temp_warning_active = true := by
        rw [update_battery_state_flag, hm, thermal_step_hot_active _ hx]
      obtain ⟨i1, i2, i3, i4, i5⟩ := ih hrest (update_battery_state m x).1 hflag
      obtain ⟨s1, s2, s3, s4⟩ :=
        state_change_events_count_thermal m.current_state
          (compute_battery_state x.is_charging (calculate_percentage x.voltage)
            m.critical_battery_threshold m.low_battery_threshold)
      rw [run_battery_actions_cons]
      refine ⟨i1, ?_, ?_, ?_, ?_⟩ <;>
        simp [hact, List.count_append, i2, i3, i4, i5, s1, s2, s3, s4,
              List.count_cons, Nat.add_comm]

/-- C2, counterexample: two consecutive ticks above the critical
threshold (60 °C then 61 °C) from the constructor state issue the
charge-disable command twice — the second tick, still above critical
after the guard tripped, disables again — while the
`battery_temp_high` event is published exactly once; the claim that
subsequent ticks above critical "do neither again" fails for the
disable half. -/
theorem c2_repeat_disable_counterexample :
    (run_battery_actions battery_manager.initial
        [hot_sample, hotter_sample]).2.count battery_action.disable_charging = 2 ∧
    (run_battery_actions battery_manager.initial
        [hot_sample, hotter_sample]).2.count
          (battery_action.publish event_type.battery_temp_high) = 1 := by
  constructor <;> with_unfolding_all rfl

/-- C2, amended: during one excursion — a tick above the critical
threshold tripping the guard, any further ticks above critical, then a
tick below the warning threshold — the `battery_temp_high` event is
published exactly once and `battery_temp_normal` never, while the
charge-disable command is issued on every tick above critical (so
`1 + |xs|` times, not once); the recovery tick publishes
`battery_temp_normal` exactly once, re-enables charging exactly once,
and clears the warning flag. -/
theorem c2_thermal_hysteresis (m : battery_manager)
    (hm : m.temp_warning_active = false)
    (x : battery_sample) (hx : BATTERY_TEMP_CRITICAL < x.temperature)
    (xs : List battery_sample)
    (hxs : ∀ y ∈ xs, BATTERY_TEMP_CRITICAL < y.temperature)
    (c : battery_sample) (hc : c.temperature < BATTERY_TEMP_WARNING) :
    (run_battery_actions m (x :: xs)).2.count
        (battery_action.publish event_type.battery_temp_high) = 1 ∧
    (run_battery_actions m (x :: xs)).2.count
        (battery_action.publish event_type.battery_temp_normal) = 0 ∧
    (run_battery_actions m (x :: xs)).2.count battery_action.disable_charging
        = xs.length + 1 ∧
    (run_battery_actions m (x :: xs)).2.count battery_action.enable_charging = 0 ∧
    (update_battery_state (run_battery_actions m (x :: xs)).1 c).2.count
        (battery_action.publish event_type.battery_temp_normal) = 1 ∧
    (update_battery_state (run_battery_actions m (x :: xs)).1 c).2.count
        (battery_action.publish event_type.battery_temp_high) = 0 ∧
    (update_battery_state (run_battery_actions m (x :: xs)).1 c).2.count
        battery_action.enable_charging = 1 ∧
    (update_battery_state (run_battery_actions m (x :: xs)).1 c).1.temp_warning_active
        = false := by
  have hact : (update_battery_state m x).2 =
      [battery_action.disable_charging,
       battery_action.publish event_type.battery_temp_high] ++
        state_change_events m.current_state
          (compute_battery_state x.is_charging (calculate_percentage x.voltage)
            m.critical_battery_threshold m.low_battery_threshold) := by
    rw [update_battery_state_actions, hm, thermal_step_hot_inactive _ hx]
  have hflag : (update_battery_state m x).1.temp_warning_active = true := by
    rw [update_battery_state_flag, hm, thermal_step_hot_inactive _ hx]
  obtain ⟨i1, i2, i3, i4, i5⟩ :=
    run_battery_hot_active xs hxs (update_battery_state m x).1 hflag
  obtain ⟨s1, s2, s3, s4⟩ :=
    state_change_events_count_thermal m.current_state
      (compute_battery_state x.is_charging (calculate_percentage x.voltage)
        m.critical_battery_threshold m.low_battery_threshold)
  have hrun1 : (run_battery_actions m (x :: xs)).1.temp_warning_active = true := by
    rw [run_battery_actions_cons]; exact i1
  have hcold : (update_battery_state (run_battery_actions m (x :: xs)).1 c).2 =
      [battery_action.enable_charging,
       battery_action.publish event_type.battery_temp_normal] ++
        state_change_events (run_battery_actions m (x :: xs)).1.current_state
          (compute_battery_state c.is_charging (calculate_percentage c.voltage)
            (run_battery_actions m (x :: xs)).1.critical_battery_threshold
            (run_battery_actions m (x :: xs)).1.low_battery_threshold) := by
    rw [update_battery_state_actions, hrun1, thermal_step_cool_active _ hc]
  have hcoldflag :
      (update_battery_state (run_battery_actions m (x :: xs)).1 c).1.temp_warning_active
        = false := by
    rw [update_battery_state_flag, hrun1, thermal_step_cool_active _ hc]
  obtain ⟨t1, t2, t3, t4⟩ :=
    state_change_events_count_thermal (run_battery_actions m (x :: xs)).1.current_state
      (compute_battery_state c.is_charging (calculate_percentage c.voltage)
        (run_battery_actions m (x :: xs)).1.critical_battery_threshold
        (run_battery_actions m (x :: xs)).1.low_battery_threshold)
  refine ⟨?_, ?_, ?_, ?_, ?_, ?_, ?_, hcoldflag⟩
  · rw [run_battery_actions_cons]
    simp [hact, List.count_append, i2, s3, List.count_cons]
  · rw [run_battery_actions_cons]
    simp [hact, List.count_append, i3, s4, List.count_cons]
  · rw [run_battery_actions_cons]
    simp [hact, List.count_append, i4, s1, List.count_cons, Nat.add_comm]
  · rw [run_battery_actions_cons]
    simp [hact, List.count_append, i5, s2, List.count_cons]
  · rw [hcold]
    simp [List.count_append, t4, List.count_cons]
  · rw [hcold]
    simp [List.count_append, t3, List.count_cons]
  · rw [hcold]
    simp [List.count_append, t2, List.count_cons]

/-- C2, witness: the excursion 60 °C, 61 °C, then 40 °C from the
constructor state. -/
theorem c2_thermal_hysteresis_witness :
    (run_battery_actions battery_manager.initial
        [hot_sample, hotter_sample]).2.count
        (battery_action.publish event_type.battery_temp_high) = 1 ∧
    (run_battery_actions battery_manager.initial
        [hot_sample, hotter_sample]).2.count
        (battery_action.publish event_type.battery_temp_normal) = 0 ∧
    (run_battery_actions battery_manager.initial
        [hot_sample, hotter_sample]).2.count battery_action.disable_charging = 2 ∧
    (run_battery_actions battery_manager.initial
        [hot_sample, hotter_sample]).2.count battery_action.enable_charging = 0 ∧
    (update_battery_state (run_battery_actions battery_manager.initial
        [hot_sample, hotter_sample]).1 cool_sample).2.count
        (battery_action.publish event_type.battery_temp_normal) = 1 ∧
    (update_battery_state (run_battery_actions battery_manager.initial
        [hot_sample, hotter_sample]).1 cool_sample).2.count
        (battery_action.publish event_type.battery_temp_high) = 0 ∧
    (update_battery_state (run_battery_actions battery_manager.initial
        [hot_sample, hotter_sample]).1 cool_sample).2.count
        battery_action.enable_charging = 1 ∧
    (update_battery_state (run_battery_actions battery_manager.initial
        [hot_sample, hotter_sample]).1 cool_sample).1.temp_warning_active = false :=
  c2_thermal_hysteresis battery_manager.initial rfl
    hot_sample (by norm_num [BATTERY_TEMP_CRITICAL, hot_sample])
    [hotter_sample]
    (by
      intro y hy
      simp only [List.mem_singleton] at hy
      subst hy
      norm_num [BATTERY_TEMP_CRITICAL, hotter_sample])
    cool_sample (by norm_num [BATTERY_TEMP_WARNING, cool_sample])

/-- C5, counterexample: on the tick that trips the thermal guard (the
constructor state sampled at 60 °C) the action sequence is the
charge-disable call followed by the `battery_temp_high` publish — the
publish does not occur strictly before the disable, contradicting the
claim. -/
theorem c5_order_counterexample :
    (update_battery_state battery_manager.initial hot_sample).2
        = [battery_action.disable_charging,
           battery_action.publish event_type.battery_temp_high] ∧
    ¬ ((update_battery_state battery_manager.initial hot_sample).2.indexOf
          (battery_action.publish event_type.battery_temp_high)
        < (update_battery_state battery_manager.initial hot_sample).2.indexOf
          battery_action.disable_charging) := by
  have h : (update_battery_state battery_manager.initial hot_sample).2
      = [battery_action.disable_charging,
         battery_action.publish event_type.battery_temp_high] := by
    with_unfolding_all rfl
  refine ⟨h, ?_⟩
  rw [h]
  decide

/-- C5, amended: within the tick that trips the thermal guard the code
disables charging strictly before publishing `battery_temp_high`: the
tick's first two actions are exactly the disable call and then the
publish. -/
theorem c5_disable_before_publish (m : battery_manager) (x : battery_sample)
    (hm : m.temp_warning_active = false)
    (hx : BATTERY_TEMP_CRITICAL < x.temperature) :
    ((update_battery_state m x).2).take 2
        = [battery_action.disable_charging,
           battery_action.publish event_type.battery_temp_high] := by
  rw [update_battery_state_actions, hm, thermal_step_hot_inactive _ hx]
  rfl

/-- C5, witness: the tripping tick at 60 °C from the constructor
state. -/
theorem c5_disable_before_publish_witness :
    ((update_battery_state battery_manager.initial hot_sample).2).take 2
        = [battery_action.disable_charging,
           battery_action.publish event_type.battery_temp_high] :=
  c5_disable_before_publish battery_manager.initial hot_sample rfl
    (by norm_num [BATTERY_TEMP_CRITICAL, hot_sample])

/-! ### C3 — idle-timeout suspension timing -/

/-- Calling `loop()` is a no-op while locked or suspended. -/
theorem pmu_loop_idle (q : pmu) (t : Nat)
    (h : q.is_locked = true ∨ q.is_suspended = true) :
    pmu_loop q t = (q, []) := by
  unfold pmu_loop
  rcases h with h | h <;> simp [h]

/-- Calling `loop()` is a no-op while the elapsed whole seconds are below the
idle timeout. -/
theorem pmu_loop_not_elapsed (q : pmu) (t : Nat)
    (hl : q.is_locked = false) (hs : q.is_suspended = false)
    (h : (t - q.last_unlock_time) / NS_PER_SEC < q.idle_timeout.toNat) :
    pmu_loop q t = (q, []) := by
  simp only [NS_PER_SEC] at h
  simp [pmu_loop, NS_PER_SEC, hl, hs]
  omega

/-- Calling `loop()` suspends once the elapsed whole seconds reach the idle
timeout. -/
theorem pmu_loop_elapsed (q : pmu) (t : Nat)
    (hl : q.is_locked = false) (hs : q.is_suspended = false)
    (h : q.idle_timeout.toNat ≤ (t - q.last_unlock_time) / NS_PER_SEC) :
    pmu_loop q t = ({ q with is_suspended := true }, [pmu_action.suspend_all]) := by
  simp only [NS_PER_SEC] at h
  simp [pmu_loop, NS_PER_SEC, hl, hs]
  omega

/-- Calling `unlock()` from the locked state clears the lock and records the
idle-window start. -/
theorem pmu_unlock_locked (p : pmu) (t0 : Nat) (hl : p.is_locked = true) :
    pmu_unlock p t0 = { p with is_locked := false, last_unlock_time := t0 } := by
  simp [pmu_unlock, hl]

/-- Unfolding one step of `pmu_run_loops`. -/
theorem pmu_run_loops_cons (q : pmu) (t : Nat) (ts : List Nat) :
    pmu_run_loops q (t :: ts) = pmu_run_loops (pmu_loop q t).1 ts := rfl

/-- A run of `loop()` calls, all strictly inside the idle window,
leaves an unlocked, unsuspended pmu exactly unchanged. -/
theorem pmu_run_loops_id : ∀ (ts : List Nat) (q : pmu),
    q.is_locked = false → q.is_suspended = false →
    (∀ t ∈ ts, q.last_unlock_time ≤ t ∧
      t < q.last_unlock_time + q.idle_timeout.toNat * NS_PER_SEC) →
    pmu_run_loops q ts = q := by
  intro ts
  induction ts with
  | nil => intro q _ _ _; rfl
  | cons t rest ih =>
      intro q hl hs hts
      obtain ⟨h1, h2⟩ := hts t (by simp)
      have helapsed : (t - q.last_unlock_time) / NS_PER_SEC < q.idle_timeout.toNat := by
        rw [Nat.div_lt_iff_lt_mul (by norm_num [NS_PER_SEC])]
        rw [Nat.sub_lt_iff_lt_add h1]
        omega
      rw [pmu_run_loops_cons, pmu_loop_not_elapsed q t hl hs helapsed]
      exact ih q hl hs (fun u hu => hts u (List.mem_cons_of_mem _ hu))

/-- C3, amended: if `unlock()` is called at time t0 while the pmu is
locked (so the call actually transitions to unlocked and records t0 as
idle-window start) and no `lock()` intervenes, then `loop()` calls
strictly before t0 + T leave the pmu unchanged and unsuspended, a
`loop()` at any time ≥ t0 + T suspends (calls `suspend_all` and sets
the suspended flag), and `loop()` changes nothing while locked or
already suspended.  (Times in nanoseconds, T the idle timeout in
seconds.)  The claim as stated — for an `unlock()` call in any state —
fails, because an `unlock()` on an already-unlocked pmu does not reset
the idle window (see the counterexample). -/
theorem c3_idle_timeout (p : pmu) (t0 : Nat)
    (hl : p.is_locked = true) (hs : p.is_suspended = false)
    (ts : List Nat)
    (hts : ∀ t ∈ ts, t0 ≤ t ∧ t < t0 + p.idle_timeout.toNat * NS_PER_SEC) :
    (pmu_run_loops (pmu_unlock p t0) ts).is_suspended = false ∧
    (∀ u : Nat, t0 + p.idle_timeout.toNat * NS_PER_SEC ≤ u →
      pmu_loop (pmu_run_loops (pmu_unlock p t0) ts) u =
        ({ pmu_run_loops (pmu_unlock p t0) ts with is_suspended := true },
         [pmu_action.suspend_all])) ∧
    (∀ (q : pmu) (t : Nat), q.is_locked = true ∨ q.is_suspended = true →
      pmu_loop q t = (q, [])) := by
  have hu : pmu_unlock p t0 = { p with is_locked := false, last_unlock_time := t0 } :=
    pmu_unlock_locked p t0 hl
  have hrun : pmu_run_loops (pmu_unlock p t0) ts = pmu_unlock p t0 := by
    apply pmu_run_loops_id ts _ (by rw [hu]) (by rw [hu]; exact hs)
    intro t ht
    rw [hu]
    exact hts t ht
  refine ⟨?_, ?_, fun q t h => pmu_loop_idle q t h⟩
  · rw [hrun, hu]
    exact hs
  · intro u hu2
    rw [hrun, hu]
    exact pmu_loop_elapsed
      { is_locked := false, last_unlock_time := t0, idle_timeout := p.idle_timeout,
        is_suspended := p.is_suspended } u rfl hs
      (by
        show p.idle_timeout.toNat ≤ (u - t0) / NS_PER_SEC
        rw [Nat.le_div_iff_mul_le (by norm_num [NS_PER_SEC])]
        generalize hA : p.idle_timeout.toNat * NS_PER_SEC = A at hu2 ⊢
        omega)

/-- C3, witness: a pmu locked with a 10-second timeout, unlocked at
t0 = 100 ns; a loop 5 s later does not suspend, a loop 10 s after t0
suspends. -/
theorem c3_idle_timeout_witness :
    (pmu_run_loops
        (pmu_unlock { is_locked := true, last_unlock_time := 0, idle_timeout := 10,
                      is_suspended := false } 100)
        [100 + 5 * NS_PER_SEC]).is_suspended = false ∧
    pmu_loop
        (pmu_run_loops
          (pmu_unlock { is_locked := true, last_unlock_time := 0, idle_timeout := 10,
                        is_suspended := false } 100)
          [100 + 5 * NS_PER_SEC]) (100 + 10 * NS_PER_SEC) =
      ({ pmu_run_loops
            (pmu_unlock { is_locked := true, last_unlock_time := 0, idle_timeout := 10,
                          is_suspended := false } 100)
            [100 + 5 * NS_PER_SEC] with is_suspended := true },
       [pmu_action.suspend_all]) := by
  have h := c3_idle_timeout
    { is_locked := true, last_unlock_time := 0, idle_timeout := 10, is_suspended := false }
    100 rfl rfl [100 + 5 * NS_PER_SEC]
    (by
      intro t ht
      simp only [List.mem_singleton] at ht
      subst ht
      exact ⟨by decide, by decide⟩)
  exact ⟨h.1, h.2.1 _ (by decide)⟩

/-- C3, counterexample: the claim as stated quantifies over any
`unlock()` call.  A pmu constructed at time 0 with T = 10 s is already
unlocked; calling `unlock()` at t0 = 9 s is a no-op that does not move
the idle-window start, so a `loop()` at 10 s — strictly before
t0 + T = 19 s — already suspends, contradicting "never at a loop
strictly before t0 + T". -/
theorem c3_early_suspend_counterexample :
    (pmu_loop (pmu_unlock (pmu_init 0 10) (9 * NS_PER_SEC))
        (10 * NS_PER_SEC)).1.is_suspended = true ∧
    10 * NS_PER_SEC < 9 * NS_PER_SEC + 10 * NS_PER_SEC := by
  constructor <;> decide

/-! ### C8 — calculate_percentage is the clamped linear map -/

/-- C8: for every voltage, `calculate_percentage` equals the linear map
sending the empty bound (3.0 V) to 0 and the full bound (4.2 V) to 100
— taken to an integer by the truncating cast, i.e. the floor — clamped
to [0, 100]; in particular a voltage at or below the empty bound gives
0 and one at or above the full bound gives 100. -/
theorem c8_calculate_percentage (v : ℚ) :
    calculate_percentage v =
      max 0 (min 100 ⌊(v - BATTERY_MIN_VOLTAGE) * 100 /
        (BATTERY_MAX_VOLTAGE - BATTERY_MIN_VOLTAGE)⌋) ∧
    (v ≤ BATTERY_MIN_VOLTAGE → calculate_percentage v = 0) ∧
    (BATTERY_MAX_VOLTAGE ≤ v → calculate_percentage v = 100) := by
  refine ⟨?_, fun h => by simp [calculate_percentage, if_pos h], fun h => ?_⟩
  · simp only [calculate_percentage, BATTERY_MIN_VOLTAGE, BATTERY_MAX_VOLTAGE]
    split_ifs with h1 h2
    · have h5 : (v - 3) * 100 / (21/5 - 3) = (250/3) * v - 250 := by ring
      have hx : (v - 3) * 100 / (21/5 - 3) ≤ 0 := by rw [h5]; linarith
      have hfl : ⌊(v - 3) * 100 / (21/5 - 3)⌋ ≤ 0 := Int.floor_nonpos hx
      omega
    · have h5 : (v - 3) * 100 / (21/5 - 3) = (250/3) * v - 250 := by ring
      have hx : (100 : ℚ) ≤ (v - 3) * 100 / (21/5 - 3) := by rw [h5]; linarith
      have hfl : (100 : Int) ≤ ⌊(v - 3) * 100 / (21/5 - 3)⌋ :=
        Int.le_floor.mpr (by exact_mod_cast hx)
      omega
    · push_neg at h1 h2
      have h5 : (v - 3) * 100 / (21/5 - 3) = (250/3) * v - 250 := by ring
      have hx0 : (0 : ℚ) ≤ (v - 3) * 100 / (21/5 - 3) := by rw [h5]; linarith
      have hx100 : (v - 3) * 100 / (21/5 - 3) < 100 := by rw [h5]; linarith
      have hfl0 : (0 : Int) ≤ ⌊(v - 3) * 100 / (21/5 - 3)⌋ :=
        Int.le_floor.mpr (by exact_mod_cast hx0)
      have hfl100 : ⌊(v - 3) * 100 / (21/5 - 3)⌋ < 100 :=
        Int.floor_lt.mpr (by exact_mod_cast hx100)
      omega
  · have hv : ¬ v ≤ BATTERY_MIN_VOLTAGE := by
      simp only [BATTERY_MIN_VOLTAGE, BATTERY_MAX_VOLTAGE] at h ⊢
      linarith
    simp [calculate_percentage, hv, if_pos h]

/-- C8, witness: the saturating cases at the concrete voltages 2 V
and 5 V. -/
theorem c8_calculate_percentage_witness :
    calculate_percentage 2 = 0 ∧ calculate_percentage 5 = 100 :=
  ⟨(c8_calculate_percentage 2).2.1 (by norm_num [BATTERY_MIN_VOLTAGE]),
   (c8_calculate_percentage 5).2.2 (by norm_num [BATTERY_MAX_VOLTAGE])⟩
